import Mathlib

/-!
Shallow embedding of the metals-scanner core (src/app) in Lean 4.

Python floats are modelled as rationals; Python `round(x, n)` (round half
to even, banker's rounding) is modelled by `pyRound`; `datetime` values are
modelled by the `PyDateTime` structure with field-lexicographic order.

Each definition is translated from the named source function; comments cite
the file and the behaviour being embedded.
-/

namespace MetalsScanner

/-! ## Python numeric helpers -/

/-- Python `round` on a rational scaled to an integer: round half to even. -/
def roundHalfEven (x : ℚ) : ℤ :=
  if x - ⌊x⌋ < 1/2 then ⌊x⌋
  else if 1/2 < x - ⌊x⌋ then ⌊x⌋ + 1
  else if ⌊x⌋ % 2 = 0 then ⌊x⌋ else ⌊x⌋ + 1

/-- Python `round(x, n)`: round to `n` decimal digits, half to even. -/
def pyRound (n : ℕ) (x : ℚ) : ℚ :=
  (roundHalfEven (x * 10 ^ n) : ℚ) / 10 ^ n

/-! ## Spread computation (src/app/main.py, calculate_spread lines 148-161)

    def calculate_spread(listing_price, weight_oz, spot_price):
        if not weight_oz or weight_oz <= 0: return None
        spot_value = weight_oz * spot_price
        if spot_value <= 0: return None
        spread_pct = ((spot_value - listing_price) / spot_value) * 100
        return round(spread_pct, 2)

`not weight_oz` is Python float truthiness: true exactly when the value is 0.
-/

def calculate_spread (listing_price weight_oz spot_price : ℚ) : Option ℚ :=
  if weight_oz = 0 ∨ weight_oz ≤ 0 then none
  else
    let spot_value := weight_oz * spot_price
    if spot_value ≤ 0 then none
    else some (pyRound 2 (((spot_value - listing_price) / spot_value) * 100))

/-- The spread stored for one listing inside perform_scan (main.py lines
220-230): computed only when `weight_oz` is present and truthy (non-zero) and
the spot price for the metal is present and truthy, via calculate_spread. -/
def spreadFor (price : ℚ) (weight_oz : Option ℚ) (spot : Option ℚ) : Option ℚ :=
  match weight_oz, spot with
  | some w, some s =>
      if w ≠ 0 ∧ s ≠ 0 then calculate_spread price w s else none
  | _, _ => none

/-- Deal classification in perform_scan (main.py line 232):
`if spread and spread > 0: deals_found += 1` (spread of None or 0.0 is falsy). -/
def isDeal (spread : Option ℚ) : Bool :=
  match spread with
  | none => false
  | some s => if s = 0 then false else decide (0 < s)

/-! ## Weight extraction (src/app/scrapers/ebay.py)

    WEIGHT_PATTERNS = [
        (r'(\d+(?:\.\d+)?)\s*(?:troy\s*)?(?:oz|ounce)(?:s)?', 1.0),
        (r'(\d+)/(\d+)\s*(?:troy\s*)?(?:oz|ounce)(?:s)?', 1.0),
        (r'(\d+(?:\.\d+)?)\s*g(?:ram)?(?:s)?', 0.0321507),
    ]

Each pattern only repeats single-character classes, and every repeated class
is disjoint from the first character every continuation can consume (digits
are never consumed by the continuations, spaces never start `troy`, `oz` or
`ounce`, and `troy`/the optional suffixes cannot succeed where skipping them
would), so Python's backtracking search is equivalent to the maximal-munch
scan implemented here; `re.search` semantics = first (leftmost) start
position at which the pattern matches. -/

def isPyDigit (c : Char) : Bool := '0' ≤ c && c ≤ '9'

/-- The characters matched by the regex class backslash-s (Python `re`). -/
def isPySpace (c : Char) : Bool :=
  c = ' ' || c = '\t' || c = '\n' || c = '\r' || c = '\x0b' || c = '\x0c'

/-- ASCII lower-casing, as Python str.lower acts on the ASCII titles here. -/
def asciiLower (c : Char) : Char :=
  if 'A' ≤ c ∧ c ≤ 'Z' then Char.ofNat (c.toNat + 32) else c

def natOfDigits (ds : List Char) : ℕ :=
  ds.foldl (fun a c => 10 * a + (c.toNat - 48)) 0

/-- Match the regex piece for a decimal number with optional fraction part at
the head of the input; return the digit groups (whole part, fraction mantissa,
fraction digit count) and the rest of the input. The matched text `w.f` has
Python float value `w + f / 10 ^ len`. -/
def numAt (cs : List Char) : Option ((ℕ × ℕ × ℕ) × List Char) :=
  let p := cs.span isPyDigit
  if p.1.isEmpty then none
  else
    match p.2 with
    | '.' :: r2 =>
        let q := r2.span isPyDigit
        if q.1.isEmpty then some ((natOfDigits p.1, 0, 0), p.2)
        else some ((natOfDigits p.1, natOfDigits q.1, q.1.length), q.2)
    | _ => some ((natOfDigits p.1, 0, 0), p.2)

/-- Python float of a matched number group: whole + mantissa / 10 ^ digits. -/
def floatOfGroup (g : ℕ × ℕ × ℕ) : ℚ :=
  (g.1 : ℚ) + (g.2.1 : ℚ) / 10 ^ g.2.2

/-- Match the regex tail for troy-ounce units: optional `troy` plus spaces,
then `oz` or `ounce`, optional plural (the plural cannot affect success). -/
def ozAt (cs : List Char) : Bool :=
  let cs1 :=
    match cs with
    | 't' :: 'r' :: 'o' :: 'y' :: r => r.dropWhile isPySpace
    | _ => cs
  match cs1 with
  | 'o' :: 'z' :: _ => true
  | 'o' :: 'u' :: 'n' :: 'c' :: 'e' :: _ => true
  | _ => false

/-- Pattern 1 matched at the head of the input: number, spaces, ounce unit. -/
def matchP1At (cs : List Char) : Option (ℕ × ℕ × ℕ) :=
  match numAt cs with
  | none => none
  | some (v, r) => if ozAt (r.dropWhile isPySpace) then some v else none

/-- Leftmost match of pattern 1 (re.search), returning group 1 digit data. -/
def searchP1 : List Char → Option (ℕ × ℕ × ℕ)
  | [] => none
  | c :: r =>
      match matchP1At (c :: r) with
      | some v => some v
      | none => searchP1 r

/-- Pattern 2 matched at the head: digits, a slash, digits, spaces, ounce
unit; returns the two digit groups. -/
def matchP2At (cs : List Char) : Option (ℕ × ℕ) :=
  let p := cs.span isPyDigit
  if p.1.isEmpty then none
  else
    match p.2 with
    | '/' :: r2 =>
        let q := r2.span isPyDigit
        if q.1.isEmpty then none
        else if ozAt (q.2.dropWhile isPySpace) then
          some (natOfDigits p.1, natOfDigits q.1)
        else none
    | _ => none

/-- Leftmost match of pattern 2, returning the numerator and denominator. -/
def searchP2 : List Char → Option (ℕ × ℕ)
  | [] => none
  | c :: r =>
      match matchP2At (c :: r) with
      | some v => some v
      | none => searchP2 r

/-- Pattern 3 matched at the head: number, spaces, the gram unit letter
(the optional `ram` and plural cannot affect success). -/
def matchP3At (cs : List Char) : Option (ℕ × ℕ × ℕ) :=
  match numAt cs with
  | none => none
  | some (v, r) =>
      match r.dropWhile isPySpace with
      | 'g' :: _ => some v
      | _ => none

/-- Leftmost match of pattern 3, returning group 1 digit data. -/
def searchP3 : List Char → Option (ℕ × ℕ × ℕ)
  | [] => none
  | c :: r =>
      match matchP3At (c :: r) with
      | some v => some v
      | none => searchP3 r

/-- Grams-to-troy-ounce factor from WEIGHT_PATTERNS: 0.0321507. -/
def GRAM_TO_OZ : ℚ := 321507 / 10 ^ 7

/-- The range check in EbayScraper._extract_weight:
`if weight <= 0 or weight > 1000: continue` (continue = try next pattern). -/
def acceptWeight (weight : ℚ) : Option ℚ :=
  if weight ≤ 0 ∨ 1000 < weight then none else some weight

/-- Pattern 1 step of the loop body: conversion factor 1.0. -/
def tryPattern1 (cs : List Char) : Option ℚ :=
  (searchP1 cs).bind fun g => acceptWeight (floatOfGroup g * 1)

/-- Pattern 2 step: numerator/denominator times factor 1.0; a denominator of
zero raises ZeroDivisionError in Python, caught by the loop and treated as
no match for this pattern. -/
def tryPattern2 (cs : List Char) : Option ℚ :=
  (searchP2 cs).bind fun p =>
    if p.2 = 0 then none else acceptWeight (((p.1 : ℚ) / (p.2 : ℚ)) * 1)

/-- Pattern 3 step: conversion factor 0.0321507. -/
def tryPattern3 (cs : List Char) : Option ℚ :=
  (searchP3 cs).bind fun g => acceptWeight (floatOfGroup g * GRAM_TO_OZ)

/-- Loop of EbayScraper._extract_weight over the (lower-cased) title: try
the three patterns in order, accept the first in-range value, return it
rounded to 4 decimals with the failed flag false; if no pattern yields a
valid value, return no weight with the failed flag true. -/
def extractCore (t : List Char) : Option ℚ × Bool :=
  match tryPattern1 t <|> tryPattern2 t <|> tryPattern3 t with
  | some w => (some (pyRound 4 w), false)
  | none => (none, true)

/-- EbayScraper._extract_weight (ebay.py lines 184-217): lower-case the
title, then run the pattern loop. -/
def extract_weight (title : String) : Option ℚ × Bool :=
  extractCore (title.data.map asciiLower)

/-- The claimed invariant on the parser's (weight, extraction_failed) pair:
a positive weight of at most 1000 ounces with the flag clear, or no weight
with the flag set. _parse_item (ebay.py lines 135-169) stores the pair from
_extract_weight verbatim in the listing. -/
def weightInvariant (r : Option ℚ × Bool) : Prop :=
  (∃ v, r.1 = some v ∧ 0 < v ∧ v ≤ 1000 ∧ r.2 = false) ∨ (r.1 = none ∧ r.2 = true)

/-! ## Rate limiter (src/app/rate_limiter.py)

Python datetimes are modelled field by field (replace keeps the fields it is
not given, in particular microseconds); datetime comparison is
field-lexicographic. -/

structure PyDateTime where
  year : ℕ
  month : ℕ
  day : ℕ
  hour : ℕ
  minute : ℕ
  second : ℕ
  microsecond : ℕ
deriving DecidableEq, Repr

/-- Field-lexicographic strict order on datetimes. -/
def dtLt (a b : PyDateTime) : Bool :=
  if a.year ≠ b.year then a.year < b.year
  else if a.month ≠ b.month then a.month < b.month
  else if a.day ≠ b.day then a.day < b.day
  else if a.hour ≠ b.hour then a.hour < b.hour
  else if a.minute ≠ b.minute then a.minute < b.minute
  else if a.second ≠ b.second then a.second < b.second
  else a.microsecond < b.microsecond

/-- In the total order on datetimes, a is at most b exactly when b is not
strictly below a. -/
def dtLe (a b : PyDateTime) : Bool := !(dtLt b a)

def isLeapYear (y : ℕ) : Bool := y % 4 == 0 && (y % 100 != 0 || y % 400 == 0)

def daysInMonth (y m : ℕ) : ℕ :=
  if m = 2 then (if isLeapYear y then 29 else 28)
  else if m = 4 ∨ m = 6 ∨ m = 9 ∨ m = 11 then 30
  else 31

/-- timedelta(days=1) added to a datetime: the next calendar day. -/
def addOneDay (d : PyDateTime) : PyDateTime :=
  if d.day < daysInMonth d.year d.month then { d with day := d.day + 1 }
  else if d.month < 12 then { d with month := d.month + 1, day := 1 }
  else { d with year := d.year + 1, month := 1, day := 1 }

/-- One row of the rate_limit_tracker table (database.py lines 86-97);
nullable integer columns are options, Python truthiness of a column is
`limTruthy`. -/
structure RateLimitTracker where
  api_name : String
  daily_limit : Option ℕ
  monthly_limit : Option ℕ
  daily_calls_used : ℕ
  monthly_calls_used : ℕ
  reset_at : PyDateTime
  last_call_at : Option PyDateTime
deriving DecidableEq, Repr

/-- Python truthiness of a nullable integer column: not NULL and not 0. -/
def limTruthy : Option ℕ → Bool
  | some l => l != 0
  | none => false

/-- The data of APIRateLimitError (exceptions.py lines 11-21); the code
passes reset_at.isoformat(), modelled as the datetime itself. -/
structure APIRateLimitError where
  api_name : String
  limit : ℕ
  reset_at : PyDateTime
deriving DecidableEq, Repr

/-- RateLimiter._reset_tracker (rate_limiter.py lines 95-110). `replace`
keeps the microsecond field. -/
def reset_tracker (t : RateLimitTracker) (now : PyDateTime) : RateLimitTracker :=
  if limTruthy t.daily_limit then
    { t with daily_calls_used := 0,
             reset_at := addOneDay { now with hour := 0, minute := 0, second := 0 } }
  else if limTruthy t.monthly_limit then
    if now.month = 12 then
      { t with monthly_calls_used := 0,
               reset_at := { now with year := now.year + 1, month := 1, day := 1, hour := 0, minute := 0, second := 0 } }
    else
      { t with monthly_calls_used := 0,
               reset_at := { now with month := now.month + 1, day := 1, hour := 0, minute := 0, second := 0 } }
  else t

/-- What one call to check_and_increment leaves behind: the returned flag,
the persisted tracker row, the burst-protection sleep performed (seconds),
and whether the in-process last-call map entry for this api was written
(its written value is the wall clock after the sleep). -/
structure CheckOutcome where
  allowed : Bool
  tracker : Option RateLimitTracker
  slept : ℚ
  last_call_updated : Bool

/-- RateLimiter.check_and_increment (rate_limiter.py lines 22-93) for one
provider: `tr` is the queried tracker row (none when no row exists), `now`
is datetime.utcnow(), `last_call` the in-process map entry for this api and
`wall_now` time.time() at the burst check. -/
def check_and_increment (tr : Option RateLimitTracker) (now : PyDateTime)
    (last_call : Option ℚ) (wall_now : ℚ) :
    Except APIRateLimitError CheckOutcome :=
  match tr with
  | none =>
      -- no tracker: warn and return True before any quota or burst logic
      .ok { allowed := true, tracker := none, slept := 0, last_call_updated := false }
  | some tracker0 =>
      let tracker1 :=
        if dtLe tracker0.reset_at now then reset_tracker tracker0 now else tracker0
      let step : Except APIRateLimitError RateLimitTracker :=
        if limTruthy tracker1.daily_limit then
          if tracker1.daily_limit.getD 0 ≤ tracker1.daily_calls_used then
            .error { api_name := tracker1.api_name,
                     limit := tracker1.daily_limit.getD 0,
                     reset_at := tracker1.reset_at }
          else .ok { tracker1 with daily_calls_used := tracker1.daily_calls_used + 1 }
        else if limTruthy tracker1.monthly_limit then
          if tracker1.monthly_limit.getD 0 ≤ tracker1.monthly_calls_used then
            .error { api_name := tracker1.api_name,
                     limit := tracker1.monthly_limit.getD 0,
                     reset_at := tracker1.reset_at }
          else .ok { tracker1 with monthly_calls_used := tracker1.monthly_calls_used + 1 }
        else .ok tracker1
      match step with
      | .error e => .error e
      | .ok tracker2 =>
          let slept : ℚ :=
            match last_call with
            | some lc => if wall_now - lc < 1/5 then 1/5 - (wall_now - lc) else 0
            | none => 0
          .ok { allowed := true,
                tracker := some { tracker2 with last_call_at := some now },
                slept := slept,
                last_call_updated := true }

/-- A sequence of check_and_increment calls on one provider at the given
times, threading the persisted tracker row; the burst-protection inputs do
not affect the quota outcome and are passed as an empty map. -/
def runCalls (t : RateLimitTracker) : List PyDateTime → Except APIRateLimitError RateLimitTracker
  | [] => .ok t
  | n :: rest =>
      match check_and_increment (some t) n none 0 with
      | .error e => .error e
      | .ok o =>
          match o.tracker with
          | some t2 => runCalls t2 rest
          | none => .ok t  -- unreachable: a present tracker is always persisted back

/-! ## Price cache (src/app/price_cache.py)

Wall-clock instants on the cache side are rational seconds; the freshness
window (get_cache_duration_minutes) is an input here, since the market-hours
policy reads the regional wall clock. The latest spot_prices row for a
symbol is the optional `latest` argument; a missing row models an empty
query result. -/

/-- Python int() on a rational: truncation toward zero. -/
def pyInt (x : ℚ) : ℤ := if x < 0 then -⌊-x⌋ else ⌊x⌋

/-- One spot_prices row (database.py lines 68-75). -/
structure CachedEntry where
  price_per_oz : ℚ
  fetched_at : ℚ
deriving Repr

/-- The dict returned by PriceCache.get_cached_price. -/
structure CachedView where
  price_per_oz : ℚ
  fetched_at : ℚ
  age_minutes : ℤ
  is_stale : Bool
deriving Repr

/-- PriceCache.get_cached_price (price_cache.py lines 59-101): read the most
recent row, compute its age in whole minutes and the staleness flag
age_minutes >= cache_duration. -/
def get_cached_price (latest : Option CachedEntry) (now : ℚ) (cache_duration : ℤ) :
    Option CachedView :=
  match latest with
  | none => none
  | some p =>
      let age_minutes := pyInt ((now - p.fetched_at) / 60)
      some { price_per_oz := p.price_per_oz, fetched_at := p.fetched_at,
             age_minutes := age_minutes,
             is_stale := decide (cache_duration ≤ age_minutes) }

/-- The dict returned by PriceCache.get_or_fetch_price; the cache-hit and
stale-fallback dicts carry no fallback key, modelled as fallback := false
and := true respectively. -/
structure PriceResult where
  price_per_oz : ℚ
  fetched_at : ℚ
  age_minutes : ℤ
  is_stale : Bool
  from_cache : Bool
  fallback : Bool
deriving Repr

/-- PriceCache.get_or_fetch_price (price_cache.py lines 137-180).
`fetch_result` is what one invocation of fetch_func would produce (a price,
or a raised exception); the second component counts how many times
fetch_func was invoked. store_price on the fresh path is modelled as
succeeding, and the fresh dict's second utcnow() call as the same instant
`now`. -/
def get_or_fetch_price (latest : Option CachedEntry) (now : ℚ) (cache_duration : ℤ)
    (fetch_result : Except Unit ℚ) : Except Unit PriceResult × ℕ :=
  match get_cached_price latest now cache_duration with
  | some cached =>
      if cached.is_stale = false then
        (.ok { price_per_oz := cached.price_per_oz, fetched_at := cached.fetched_at,
               age_minutes := cached.age_minutes, is_stale := cached.is_stale,
               from_cache := true, fallback := false }, 0)
      else
        match fetch_result with
        | .ok fresh =>
            (.ok { price_per_oz := fresh, fetched_at := now, age_minutes := 0,
                   is_stale := false, from_cache := false, fallback := false }, 1)
        | .error _ =>
            (.ok { price_per_oz := cached.price_per_oz, fetched_at := cached.fetched_at,
                   age_minutes := cached.age_minutes, is_stale := cached.is_stale,
                   from_cache := true, fallback := true }, 1)
  | none =>
      match fetch_result with
      | .ok fresh =>
          (.ok { price_per_oz := fresh, fetched_at := now, age_minutes := 0,
                 is_stale := false, from_cache := false, fallback := false }, 1)
      | .error e => (.error e, 1)

/-! ## Resilient fetch (src/app/scrapers/base.py, make_request lines 37-143)

One simulated environment maps the attempt index to what that attempt sees:
an HTTP status, a timeout, or a connection failure. -/

inductive SimResponse
  | status (code : ℕ)
  | timeout
  | connFail
deriving DecidableEq, Repr

/-- One api_call_logs row as written by _log_api_call (the fields the claims
speak about: status code and success flag). -/
structure CallAudit where
  status_code : Option ℕ
  success : Bool
deriving DecidableEq, Repr

/-- The result of make_request: a response, or APIConnectionError carrying
the number of attempts reported (the current 0-based attempt for a client
error, retry_attempts after exhaustion). -/
inductive RequestOutcome
  | ok (status : ℕ)
  | connError (attempts : ℕ)
deriving DecidableEq, Repr

/-- The attempt loop of make_request from attempt index i with `remaining`
iterations left, collecting audit rows in order. Per the code: every
received response is logged once with success = (status < 400); the retry
machinery is only reached when response.raise_for_status() raises, which the
requests library does exactly for statuses 400-599. So a status below 400
returns the response; a 4xx logs a second client-error row and raises at
once; a 5xx (500-599) retries; a status of 600 or above raises nothing and
the response is returned after the single logged attempt; timeout and
connection errors retry without logging an attempt row; after the loop a
final row with no status is logged and APIConnectionError(retry_attempts)
is raised. -/
def make_requestFrom (responses : ℕ → SimResponse) (retry_attempts : ℕ) :
    ℕ → ℕ → List CallAudit × RequestOutcome
  | 0, _ => ([{ status_code := none, success := false }], .connError retry_attempts)
  | r + 1, i =>
      match responses i with
      | .status s =>
          let audit : CallAudit := { status_code := some s, success := decide (s < 400) }
          if s < 400 then ([audit], .ok s)
          else if s < 500 then
            ([audit, { status_code := some s, success := false }], .connError i)
          else if s < 600 then
            let next := make_requestFrom responses retry_attempts r (i + 1)
            (audit :: next.1, next.2)
          else ([audit], .ok s)
      | .timeout =>
          make_requestFrom responses retry_attempts r (i + 1)
      | .connFail =>
          make_requestFrom responses retry_attempts r (i + 1)

/-- BaseScraper.make_request with `retry_attempts` tries over the simulated
responses. -/
def make_request (retry_attempts : ℕ) (responses : ℕ → SimResponse) :
    List CallAudit × RequestOutcome :=
  make_requestFrom responses retry_attempts retry_attempts 0

/-! ## Scan orchestration (src/app/main.py, perform_scan lines 178-263) -/

/-- The fields of one scraped listing dict that the scan loop reads. -/
structure ListingData where
  external_id : String
  price : ℚ
  metal_type : String
  weight_oz : Option ℚ
deriving Repr

/-- The error strings appended to the scan's error list, modelled as tagged
values: the spot-price failure message, and the per-listing
`Listing processing error` message identified by the listing. -/
inductive ScanError
  | spotPricesUnavailable
  | listingError (external_id : String)
deriving DecidableEq, Repr

/-- The dict returned by perform_scan (timing fields omitted). -/
structure ScanOutcome where
  success : Bool
  listings_found : ℕ
  deals_found : ℕ
  errors : List ScanError
deriving Repr

/-- The spot-price check at the top of perform_scan (main.py lines 191-195):
`if not spot_prices.get('gold') or not spot_prices.get('silver')` appends
one error (missing key and 0.0 price are both falsy). -/
def spotErrors (spot : String → Option ℚ) : List ScanError :=
  if (spot "gold").getD 0 = 0 ∨ (spot "silver").getD 0 = 0 then
    [ScanError.spotPricesUnavailable]
  else []

/-- The body of the per-listing loop for one listing: a persistence failure
(modelled as raised at the listing's first database operation) is caught,
appends one error and rolls back only this listing; otherwise the spread is
computed and the deal counter updated. -/
def scanStep (spot : String → Option ℚ) (acc : ℕ × List ScanError)
    (it : ListingData × Bool) : ℕ × List ScanError :=
  if it.2 then (acc.1, acc.2 ++ [ScanError.listingError it.1.external_id])
  else
    let spread := spreadFor it.1.price it.1.weight_oz (spot it.1.metal_type)
    (if isDeal spread then acc.1 + 1 else acc.1, acc.2)

/-- perform_scan after a successful scrape: `items` pairs each scraped
listing with whether its per-listing persistence raises; the outcome
collects success = (no errors), the listing count, the deal count and the
error list. -/
def perform_scan (spot : String → Option ℚ) (items : List (ListingData × Bool)) :
    ScanOutcome :=
  let r := items.foldl (scanStep spot) (0, spotErrors spot)
  { success := r.2.length = 0,
    listings_found := items.length,
    deals_found := r.1,
    errors := r.2 }

/-! ## Helper lemmas -/

theorem extractCore_of_some {t : List Char} {w : ℚ}
    (h : (tryPattern1 t <|> tryPattern2 t <|> tryPattern3 t) = some w) :
    extractCore t = (some (pyRound 4 w), false) := by
  unfold extractCore
  rw [h]

theorem extractCore_of_none {t : List Char}
    (h : (tryPattern1 t <|> tryPattern2 t <|> tryPattern3 t) = none) :
    extractCore t = (none, true) := by
  unfold extractCore
  rw [h]

theorem acceptWeight_bounds {w v : ℚ} (h : acceptWeight w = some v) :
    v = w ∧ 0 < w ∧ w ≤ 1000 := by
  unfold acceptWeight at h
  split at h
  · exact absurd h (by simp)
  · rename_i hc
    push_neg at hc
    simp only [Option.some.injEq] at h
    exact ⟨h.symm, hc.1, hc.2⟩

theorem roundHalfEven_nonneg {x : ℚ} (hx : 0 ≤ x) : 0 ≤ roundHalfEven x := by
  have hf : (0 : ℤ) ≤ ⌊x⌋ := Int.floor_nonneg.mpr hx
  unfold roundHalfEven
  split
  · exact hf
  · split
    · omega
    · split
      · exact hf
      · omega

theorem roundHalfEven_le {x : ℚ} {B : ℤ} (hx : x ≤ B) : roundHalfEven x ≤ B := by
  have hf : ⌊x⌋ ≤ B := by
    calc ⌊x⌋ ≤ ⌊(B : ℚ)⌋ := Int.floor_le_floor hx
    _ = B := Int.floor_intCast B
  unfold roundHalfEven
  split
  · exact hf
  · rename_i hlt
    push_neg at hlt
    have hx2 : (⌊x⌋ : ℚ) + 1/2 ≤ x := by linarith
    have hfx : (⌊x⌋ : ℚ) < (B : ℚ) := by
      have := Int.floor_le x
      linarith
    have hfB : ⌊x⌋ < B := by exact_mod_cast hfx
    split
    · omega
    · split
      · exact hf
      · omega

theorem pyRound_nonneg {n : ℕ} {x : ℚ} (hx : 0 ≤ x) : 0 ≤ pyRound n x := by
  unfold pyRound
  have h1 : (0 : ℚ) ≤ (roundHalfEven (x * 10 ^ n) : ℚ) := by
    exact_mod_cast roundHalfEven_nonneg (by positivity)
  positivity

theorem pyRound_le_of_le {n : ℕ} {x : ℚ} {b : ℕ} (hx : x ≤ b) :
    pyRound n x ≤ b := by
  unfold pyRound
  have h1 : x * 10 ^ n ≤ ((b * 10 ^ n : ℕ) : ℤ) := by
    push_cast
    have : (0 : ℚ) < 10 ^ n := by positivity
    nlinarith
  have h2 : roundHalfEven (x * 10 ^ n) ≤ ((b * 10 ^ n : ℕ) : ℤ) := roundHalfEven_le h1
  have h3 : (roundHalfEven (x * 10 ^ n) : ℚ) ≤ (b : ℚ) * 10 ^ n := by
    exact_mod_cast h2
  rw [div_le_iff₀ (by positivity : (0:ℚ) < 10 ^ n)]
  exact h3

theorem orElse_some_inv {α} {a b : Option α} {x : α} (h : (a <|> b) = some x) :
    a = some x ∨ b = some x := by
  cases a with
  | some y => left; simpa using h
  | none => right; simpa using h

theorem tryPattern1_bounds {t : List Char} {w : ℚ} (h : tryPattern1 t = some w) :
    0 < w ∧ w ≤ 1000 := by
  unfold tryPattern1 at h
  rw [Option.bind_eq_some] at h
  obtain ⟨g, _, hacc⟩ := h
  obtain ⟨hvw, h1, h2⟩ := acceptWeight_bounds hacc
  exact ⟨hvw ▸ h1, hvw ▸ h2⟩

theorem tryPattern2_bounds {t : List Char} {w : ℚ} (h : tryPattern2 t = some w) :
    0 < w ∧ w ≤ 1000 := by
  unfold tryPattern2 at h
  rw [Option.bind_eq_some] at h
  obtain ⟨g, _, hacc⟩ := h
  split at hacc
  · exact absurd hacc (by simp)
  · obtain ⟨hvw, h1, h2⟩ := acceptWeight_bounds hacc
    exact ⟨hvw ▸ h1, hvw ▸ h2⟩

theorem tryPattern3_bounds {t : List Char} {w : ℚ} (h : tryPattern3 t = some w) :
    0 < w ∧ w ≤ 1000 := by
  unfold tryPattern3 at h
  rw [Option.bind_eq_some] at h
  obtain ⟨g, _, hacc⟩ := h
  obtain ⟨hvw, h1, h2⟩ := acceptWeight_bounds hacc
  exact ⟨hvw ▸ h1, hvw ▸ h2⟩

/-! ## Claim C2 -/

/-- C2: what EbayScraper._extract_weight actually computes on the spec's
three examples. The title with a fraction of an ounce yields weight 10, not
approximately 0.1: the leftmost re.search match of the first (whole-number
ounce) pattern inside the fraction text is the substring of the denominator
followed by the unit, and its value 10 lies within (0, 1000], so the
fraction pattern listed second is never consulted. The gram title yields
31.1 times 0.0321507 rounded to 4 decimals, and a title with no number
yields no weight with the failed flag set. -/
theorem c2_weight_extraction_eval :
    extract_weight "1/10 oz gold eagle" = (some 10, false) ∧
    extract_weight "31.1g silver bar" = (some (9999/10000), false) ∧
    extract_weight "no weight here" = (none, true) := by
  refine ⟨?_, ?_, ?_⟩
  · have h0 : "1/10 oz gold eagle".data.map asciiLower = "1/10 oz gold eagle".data := by
      decide
    have h1 : searchP1 ("1/10 oz gold eagle".data) = some (10, 0, 0) := by decide
    have e1 : tryPattern1 ("1/10 oz gold eagle".data) = some 10 := by
      simp only [tryPattern1, h1, Option.some_bind]
      norm_num [acceptWeight, floatOfGroup]
    show extractCore ("1/10 oz gold eagle".data.map asciiLower) = _
    rw [h0, extractCore_of_some (w := 10)]
    · norm_num [pyRound, roundHalfEven]
    · simp only [e1, Option.some_orElse]
  · have h0 : "31.1g silver bar".data.map asciiLower = "31.1g silver bar".data := by decide
    have h1 : searchP1 ("31.1g silver bar".data) = none := by decide
    have h2 : searchP2 ("31.1g silver bar".data) = none := by decide
    have h3 : searchP3 ("31.1g silver bar".data) = some (31, 1, 1) := by decide
    have e1 : tryPattern1 ("31.1g silver bar".data) = none := by
      simp only [tryPattern1, h1, Option.none_bind]
    have e2 : tryPattern2 ("31.1g silver bar".data) = none := by
      simp only [tryPattern2, h2, Option.none_bind]
    have e3 : tryPattern3 ("31.1g silver bar".data) = some (99988677/100000000) := by
      simp only [tryPattern3, h3, Option.some_bind]
      norm_num [acceptWeight, floatOfGroup, GRAM_TO_OZ]
    show extractCore ("31.1g silver bar".data.map asciiLower) = _
    rw [h0, extractCore_of_some (w := 99988677/100000000)]
    · norm_num [pyRound, roundHalfEven]
    · simp only [e1, e2, e3, Option.none_orElse]
  · have h0 : "no weight here".data.map asciiLower = "no weight here".data := by decide
    have h1 : searchP1 ("no weight here".data) = none := by decide
    have h2 : searchP2 ("no weight here".data) = none := by decide
    have h3 : searchP3 ("no weight here".data) = none := by decide
    show extractCore ("no weight here".data.map asciiLower) = _
    rw [h0, extractCore_of_none]
    simp only [tryPattern1, tryPattern2, tryPattern3, h1, h2, h3, Option.none_bind,
      Option.none_orElse]

/-! ## Claim C9 -/

/-- C9 counterexample: for the title 0.001g silver the parser accepts the
in-range raw weight 0.001 times 0.0321507, then rounds it to 4 decimals,
producing a present weight equal to 0 with the failed flag clear — a
present, non-positive weight, refuting the claimed invariant. -/
theorem c9_weight_invariant_counterexample :
    extract_weight "0.001g silver" = (some 0, false) ∧
    ¬ weightInvariant (extract_weight "0.001g silver") := by
  have he : extract_weight "0.001g silver" = (some 0, false) := by
    have h0 : "0.001g silver".data.map asciiLower = "0.001g silver".data := by decide
    have h1 : searchP1 ("0.001g silver".data) = none := by decide
    have h2 : searchP2 ("0.001g silver".data) = none := by decide
    have h3 : searchP3 ("0.001g silver".data) = some (0, 1, 3) := by decide
    have e1 : tryPattern1 ("0.001g silver".data) = none := by
      simp only [tryPattern1, h1, Option.none_bind]
    have e2 : tryPattern2 ("0.001g silver".data) = none := by
      simp only [tryPattern2, h2, Option.none_bind]
    have e3 : tryPattern3 ("0.001g silver".data) = some (321507/10000000000) := by
      simp only [tryPattern3, h3, Option.some_bind]
      norm_num [acceptWeight, floatOfGroup, GRAM_TO_OZ]
    show extractCore ("0.001g silver".data.map asciiLower) = _
    rw [h0, extractCore_of_some (w := 321507/10000000000)]
    · norm_num [pyRound, roundHalfEven]
    · simp only [e1, e2, e3, Option.none_orElse]
  refine ⟨he, ?_⟩
  rw [he]
  rintro (⟨v, hv, hpos, -, -⟩ | ⟨hn, -⟩)
  · simp only [Option.some.injEq] at hv
    rw [← hv] at hpos
    exact absurd hpos (lt_irrefl 0)
  · exact Option.noConfusion hn

/-- C9 (amended): the weight field of a parsed listing is either a present
nonnegative value of at most 1000 ounces with the extraction-failed flag
false (positive before the final 4-decimal rounding, which can round a tiny
in-range value down to 0), or absent with the flag true. -/
theorem c9_weight_invariant_amended (title : String) :
    (∃ v, (extract_weight title).1 = some v ∧ 0 ≤ v ∧ v ≤ 1000 ∧
      (extract_weight title).2 = false) ∨
    ((extract_weight title).1 = none ∧ (extract_weight title).2 = true) := by
  unfold extract_weight
  generalize title.data.map asciiLower = t
  cases horelse : (tryPattern1 t <|> tryPattern2 t <|> tryPattern3 t) with
  | none =>
      right
      rw [extractCore_of_none horelse]
      exact ⟨rfl, rfl⟩
  | some w =>
      left
      have hw : 0 < w ∧ w ≤ 1000 := by
        rcases orElse_some_inv horelse with h | h
        · exact tryPattern1_bounds h
        · rcases orElse_some_inv h with h2 | h2
          · exact tryPattern2_bounds h2
          · exact tryPattern3_bounds h2
      rw [extractCore_of_some horelse]
      refine ⟨pyRound 4 w, rfl, pyRound_nonneg hw.1.le, ?_, rfl⟩
      exact_mod_cast pyRound_le_of_le (b := 1000) (by exact_mod_cast hw.2)

/-! ## Claim C5 -/

/-- C5: with weight and reference price both known and a positive reference
value, the stored spread is the spread formula rounded to 2 decimals; the
spread is left undefined when the weight is absent, the reference price is
absent, or the reference value is not positive; a listing is a deal exactly
when its spread is defined and positive; and the spec example weight 1,
price 1700, reference 2000 gives spread 15, a deal. (The positivity of the
weight in the first part reflects the parser, which never produces a
negative weight.) -/
theorem c5_spread_rules :
    (∀ price w s : ℚ, 0 < w → 0 < w * s →
        spreadFor price (some w) (some s) =
          some (pyRound 2 (((w * s - price) / (w * s)) * 100))) ∧
    (∀ (price : ℚ) (s : Option ℚ), spreadFor price none s = none) ∧
    (∀ (price : ℚ) (w : Option ℚ), spreadFor price w none = none) ∧
    (∀ price w s : ℚ, w * s ≤ 0 → spreadFor price (some w) (some s) = none) ∧
    (∀ sp : Option ℚ, isDeal sp = true ↔ ∃ v, sp = some v ∧ 0 < v) ∧
    (spreadFor 1700 (some 1) (some 2000) = some 15 ∧
      isDeal (spreadFor 1700 (some 1) (some 2000)) = true) := by
  have hmain : ∀ price w s : ℚ, 0 < w → 0 < w * s →
      spreadFor price (some w) (some s) =
        some (pyRound 2 (((w * s - price) / (w * s)) * 100)) := by
    intro price w s hw hws
    have hs : s ≠ 0 := by
      rintro rfl
      rw [mul_zero] at hws
      exact lt_irrefl 0 hws
    have h1 : ¬(w = 0 ∨ w ≤ 0) := by
      push_neg
      exact ⟨ne_of_gt hw, hw⟩
    have h2 : ¬(w * s ≤ 0) := not_le.mpr hws
    simp only [spreadFor]
    rw [if_pos ⟨ne_of_gt hw, hs⟩]
    simp only [calculate_spread]
    rw [if_neg h1, if_neg h2]
  have hdeal : ∀ sp : Option ℚ, isDeal sp = true ↔ ∃ v, sp = some v ∧ 0 < v := by
    intro sp
    cases sp with
    | none => simp [isDeal]
    | some s =>
        by_cases hs : s = 0
        · subst hs
          simp [isDeal]
        · simp [isDeal, hs]
  refine ⟨hmain, ?_, ?_, ?_, hdeal, ?_, ?_⟩
  · intro price s
    cases s <;> rfl
  · intro price w
    cases w <;> rfl
  · intro price w s hws
    simp only [spreadFor, calculate_spread]
    by_cases hwle : w = 0 ∨ w ≤ 0
    · rw [if_pos hwle, ite_self]
    · rw [if_neg hwle, if_pos hws, ite_self]
  · have := hmain 1700 1 2000 (by norm_num) (by norm_num)
    rw [this]
    norm_num [pyRound, roundHalfEven]
  · have := hmain 1700 1 2000 (by norm_num) (by norm_num)
    rw [this]
    norm_num [isDeal, pyRound, roundHalfEven]

/-- C5 witness: the first part of the spread theorem applied at the spec's
concrete example. -/
theorem c5_spread_rules_witness :
    spreadFor 1700 (some 1) (some 2000) =
      some (pyRound 2 (((1 * 2000 - 1700) / (1 * 2000)) * 100)) :=
  c5_spread_rules.1 1700 1 2000 (by norm_num) (by norm_num)

/-! ## Rate limiter lemmas -/

theorem check_step_ok (t : RateLimitTracker) (L : ℕ) (now : PyDateTime)
    (hdl : t.daily_limit = some L)
    (hnow : dtLt now t.reset_at = true)
    (hq : t.daily_calls_used < L) :
    check_and_increment (some t) now none 0 =
      .ok { allowed := true,
            tracker := some { t with daily_calls_used := t.daily_calls_used + 1, last_call_at := some now },
            slept := 0, last_call_updated := true } := by
  have h1 : dtLe t.reset_at now = false := by
    unfold dtLe
    rw [hnow]
    rfl
  have h2 : limTruthy (some L) = true := by
    simp only [limTruthy, bne_iff_ne, ne_eq, decide_eq_true_eq]
    omega
  have h3 : ¬(L ≤ t.daily_calls_used) := by omega
  simp only [check_and_increment, h1, Bool.false_eq_true, if_false, hdl, h2, if_true,
    Option.getD_some, if_neg h3]

theorem check_step_reject (t : RateLimitTracker) (L : ℕ) (now : PyDateTime)
    (hdl : t.daily_limit = some L) (hL : 0 < L)
    (hnow : dtLt now t.reset_at = true)
    (hq : L ≤ t.daily_calls_used) :
    check_and_increment (some t) now none 0 =
      .error { api_name := t.api_name, limit := L, reset_at := t.reset_at } := by
  have h1 : dtLe t.reset_at now = false := by
    unfold dtLe
    rw [hnow]
    rfl
  have h2 : limTruthy (some L) = true := by
    simp only [limTruthy, bne_iff_ne, ne_eq, decide_eq_true_eq]
    omega
  simp only [check_and_increment, h1, Bool.false_eq_true, if_false, hdl, h2, if_true,
    Option.getD_some, if_pos hq]

theorem check_step_reset (t : RateLimitTracker) (L : ℕ) (now : PyDateTime)
    (hdl : t.daily_limit = some L) (hL : 0 < L)
    (hnow : dtLe t.reset_at now = true) :
    check_and_increment (some t) now none 0 =
      .ok { allowed := true,
            tracker := some { t with daily_calls_used := 1,
                                     reset_at := addOneDay { now with hour := 0, minute := 0, second := 0 },
                                     last_call_at := some now },
            slept := 0, last_call_updated := true } := by
  have h2 : limTruthy (some L) = true := by
    simp only [limTruthy, bne_iff_ne, ne_eq, decide_eq_true_eq]
    omega
  have h3 : ¬(L ≤ 0) := by omega
  simp only [check_and_increment, hnow, if_true, reset_tracker, hdl, h2,
    Option.getD_some, if_neg h3]

theorem runCalls_ok (times : List PyDateTime) :
    ∀ (t : RateLimitTracker) (L : ℕ),
    t.daily_limit = some L →
    t.daily_calls_used + times.length ≤ L →
    (∀ x ∈ times, dtLt x t.reset_at = true) →
    ∃ t', runCalls t times = .ok t' ∧
      t'.daily_calls_used = t.daily_calls_used + times.length ∧
      t'.reset_at = t.reset_at ∧ t'.daily_limit = t.daily_limit ∧
      t'.api_name = t.api_name := by
  induction times with
  | nil =>
      intro t L hdl _ _
      exact ⟨t, rfl, by simp, rfl, rfl, rfl⟩
  | cons n rest ih =>
      intro t L hdl hlen hin
      have hq : t.daily_calls_used < L := by
        simp only [List.length_cons] at hlen
        omega
      have hn : dtLt n t.reset_at = true := hin n (List.mem_cons_self n rest)
      have hstep := check_step_ok t L n hdl hn hq
      set t2 : RateLimitTracker :=
        { t with daily_calls_used := t.daily_calls_used + 1, last_call_at := some n } with ht2
      obtain ⟨t', hrun, hused, hreset, hlimit, hname⟩ :=
        ih t2 L (by rw [ht2]; exact hdl)
          (by simp only [ht2, List.length_cons] at hlen ⊢; omega)
          (by intro x hx; exact hin x (List.mem_cons_of_mem n hx))
      refine ⟨t', ?_, ?_, hreset, hlimit, hname⟩
      · simp only [runCalls, hstep]
        exact hrun
      · simp only [hused, ht2, List.length_cons]
        omega

/-! ## Claim C1 -/

/-- C1: for a provider with daily limit L > 0 whose period has not elapsed,
each of L consecutive calls succeeds and increments the counter by one (after
k calls the counter reads k), the (L+1)-th call within the period raises
APIRateLimitError carrying the current limit and reset_at, and the first
call at or after reset_at succeeds with the counter restarting at 1. -/
theorem c1_daily_quota_cycle
    (L : ℕ) (t : RateLimitTracker) (times : List PyDateTime) (tExtra tAfter : PyDateTime)
    (hL : 0 < L) (hdl : t.daily_limit = some L) (hused : t.daily_calls_used = 0)
    (hlen : times.length = L)
    (hin : ∀ x ∈ times, dtLt x t.reset_at = true)
    (hE : dtLt tExtra t.reset_at = true)
    (hA : dtLe t.reset_at tAfter = true) :
    (∀ k, k ≤ L → ∃ tk, runCalls t (times.take k) = .ok tk ∧
        tk.daily_calls_used = k) ∧
    ∃ t', runCalls t times = .ok t' ∧ t'.daily_calls_used = L ∧
      t'.reset_at = t.reset_at ∧
      check_and_increment (some t') tExtra none 0 =
        .error { api_name := t.api_name, limit := L, reset_at := t.reset_at } ∧
      ∃ o t'', check_and_increment (some t') tAfter none 0 = .ok o ∧
        o.tracker = some t'' ∧ t''.daily_calls_used = 1 := by
  constructor
  · intro k hk
    obtain ⟨tk, hrun, hu, -, -, -⟩ :=
      runCalls_ok (times.take k) t L hdl
        (by rw [hused, List.length_take, hlen]; omega)
        (by intro x hx; exact hin x (List.mem_of_mem_take hx))
    refine ⟨tk, hrun, ?_⟩
    rw [hu, hused, List.length_take, hlen]
    omega
  · obtain ⟨t', hrun, hu, hreset, hlimit, hname⟩ :=
      runCalls_ok times t L hdl (by rw [hused, hlen]; omega) hin
    have hu' : t'.daily_calls_used = L := by
      rw [hu, hused, hlen]
      omega
    have hdl' : t'.daily_limit = some L := by rw [hlimit, hdl]
    refine ⟨t', hrun, hu', hreset, ?_, ?_⟩
    · have := check_step_reject t' L tExtra hdl' hL (by rw [hreset]; exact hE)
        (le_of_eq hu'.symm)
      rw [this, hname, hreset]
    · have := check_step_reset t' L tAfter hdl' hL (by rw [hreset]; exact hA)
      exact ⟨_, _, this, rfl, rfl⟩

/-- C1 witness: the quota cycle theorem at a concrete daily tracker with
limit 2, two in-period calls, a rejected third call, and a call after the
reset time. -/
theorem c1_daily_quota_cycle_witness :
    (∀ k, k ≤ 2 → ∃ tk,
      runCalls
        { api_name := "ebay", daily_limit := some 2, monthly_limit := none,
          daily_calls_used := 0, monthly_calls_used := 0,
          reset_at := ⟨2026, 1, 2, 0, 0, 0, 0⟩, last_call_at := none }
        ([⟨2026, 1, 1, 10, 0, 0, 0⟩, ⟨2026, 1, 1, 11, 0, 0, 0⟩].take k) = .ok tk ∧
        tk.daily_calls_used = k) ∧
    ∃ t', runCalls
        { api_name := "ebay", daily_limit := some 2, monthly_limit := none,
          daily_calls_used := 0, monthly_calls_used := 0,
          reset_at := ⟨2026, 1, 2, 0, 0, 0, 0⟩, last_call_at := none }
        [⟨2026, 1, 1, 10, 0, 0, 0⟩, ⟨2026, 1, 1, 11, 0, 0, 0⟩] = .ok t' ∧
      t'.daily_calls_used = 2 ∧ t'.reset_at = ⟨2026, 1, 2, 0, 0, 0, 0⟩ ∧
      check_and_increment (some t') ⟨2026, 1, 1, 12, 0, 0, 0⟩ none 0 =
        .error { api_name := "ebay", limit := 2, reset_at := ⟨2026, 1, 2, 0, 0, 0, 0⟩ } ∧
      ∃ o t'', check_and_increment (some t') ⟨2026, 1, 2, 5, 0, 0, 0⟩ none 0 = .ok o ∧
        o.tracker = some t'' ∧ t''.daily_calls_used = 1 :=
  c1_daily_quota_cycle 2
    { api_name := "ebay", daily_limit := some 2, monthly_limit := none,
      daily_calls_used := 0, monthly_calls_used := 0,
      reset_at := ⟨2026, 1, 2, 0, 0, 0, 0⟩, last_call_at := none }
    [⟨2026, 1, 1, 10, 0, 0, 0⟩, ⟨2026, 1, 1, 11, 0, 0, 0⟩]
    ⟨2026, 1, 1, 12, 0, 0, 0⟩ ⟨2026, 1, 2, 5, 0, 0, 0⟩
    (by decide) rfl rfl rfl (by decide) (by decide) (by decide)

/-! ## Claim C7 -/

/-- C7: rolling over a monthly-limited tracker (no truthy daily limit, a
truthy monthly limit) at a December instant zeroes the monthly counter and
sets reset_at to January 1 of the following year at midnight; at an instant
in any other month it zeroes the counter and sets reset_at to the first day
of the next calendar month (datetime.replace carries the microsecond field
in both cases). -/
theorem c7_monthly_rollover (t : RateLimitTracker) (now : PyDateTime)
    (hd : limTruthy t.daily_limit = false)
    (hm : limTruthy t.monthly_limit = true) :
    (now.month = 12 →
      reset_tracker t now =
        { t with monthly_calls_used := 0,
                 reset_at := ⟨now.year + 1, 1, 1, 0, 0, 0, now.microsecond⟩ }) ∧
    (now.month ≠ 12 →
      reset_tracker t now =
        { t with monthly_calls_used := 0,
                 reset_at := ⟨now.year, now.month + 1, 1, 0, 0, 0, now.microsecond⟩ }) := by
  constructor
  · intro h12
    simp only [reset_tracker, hd, Bool.false_eq_true, if_false, hm, if_true, if_pos h12]
  · intro h12
    simp only [reset_tracker, hd, Bool.false_eq_true, if_false, hm, if_true, if_neg h12]

/-- C7 witness: the rollover theorem at a concrete monthly tracker, once at
a December instant and once at a November instant. -/
theorem c7_monthly_rollover_witness :
    (reset_tracker
        { api_name := "metals-api", daily_limit := none, monthly_limit := some 100,
          daily_calls_used := 0, monthly_calls_used := 73,
          reset_at := ⟨2025, 12, 1, 0, 0, 0, 0⟩, last_call_at := none }
        ⟨2025, 12, 31, 23, 59, 59, 123⟩ =
      { api_name := "metals-api", daily_limit := none, monthly_limit := some 100,
        daily_calls_used := 0, monthly_calls_used := 0,
        reset_at := ⟨2026, 1, 1, 0, 0, 0, 123⟩, last_call_at := none }) ∧
    (reset_tracker
        { api_name := "metals-api", daily_limit := none, monthly_limit := some 100,
          daily_calls_used := 0, monthly_calls_used := 73,
          reset_at := ⟨2025, 11, 1, 0, 0, 0, 0⟩, last_call_at := none }
        ⟨2025, 11, 30, 8, 0, 0, 5⟩ =
      { api_name := "metals-api", daily_limit := none, monthly_limit := some 100,
        daily_calls_used := 0, monthly_calls_used := 0,
        reset_at := ⟨2025, 12, 1, 0, 0, 0, 5⟩, last_call_at := none }) :=
  ⟨(c7_monthly_rollover
      { api_name := "metals-api", daily_limit := none, monthly_limit := some 100,
        daily_calls_used := 0, monthly_calls_used := 73,
        reset_at := ⟨2025, 12, 1, 0, 0, 0, 0⟩, last_call_at := none }
      ⟨2025, 12, 31, 23, 59, 59, 123⟩ rfl rfl).1 rfl,
   (c7_monthly_rollover
      { api_name := "metals-api", daily_limit := none, monthly_limit := some 100,
        daily_calls_used := 0, monthly_calls_used := 73,
        reset_at := ⟨2025, 11, 1, 0, 0, 0, 0⟩, last_call_at := none }
      ⟨2025, 11, 30, 8, 0, 0, 5⟩ rfl rfl).2 (by decide)⟩

/-! ## Claim C10 -/

/-- C10: when no quota row exists for the requested provider,
check_and_increment returns allowed immediately: no error is raised, no
tracker row is created or incremented, no burst-protection sleep happens and
the in-process last-call map is not written, whatever the current time, the
map entry and the wall clock are. -/
theorem c10_missing_tracker_bypass (now : PyDateTime) (last_call : Option ℚ)
    (wall_now : ℚ) :
    check_and_increment none now last_call wall_now =
      .ok { allowed := true, tracker := none, slept := 0,
            last_call_updated := false } := rfl

/-! ## Price cache lemmas -/

theorem get_cached_price_stale {latest : Option CachedEntry} {now : ℚ} {dur : ℤ}
    {v : CachedView} (h : get_cached_price latest now dur = some v) :
    v.is_stale = decide (dur ≤ v.age_minutes) := by
  unfold get_cached_price at h
  cases latest with
  | none => exact absurd h (by simp)
  | some p =>
      simp only [Option.some.injEq] at h
      rw [← h]

/-! ## Claim C6 -/

/-- C6: when a cached row exists whose age is strictly below the current
freshness window, get_or_fetch_price returns the cached fields unmodified,
tagged from_cache, without consulting the fetch function (zero invocations);
when the row is absent or its age is at least the window, the fetch function
is invoked exactly once. -/
theorem c6_cache_freshness (latest : Option CachedEntry) (now : ℚ) (dur : ℤ)
    (fetch_result : Except Unit ℚ) :
    (∀ v, get_cached_price latest now dur = some v → v.age_minutes < dur →
      get_or_fetch_price latest now dur fetch_result =
        (.ok { price_per_oz := v.price_per_oz, fetched_at := v.fetched_at,
               age_minutes := v.age_minutes, is_stale := v.is_stale,
               from_cache := true, fallback := false }, 0)) ∧
    ((get_cached_price latest now dur = none ∨
        ∃ v, get_cached_price latest now dur = some v ∧ dur ≤ v.age_minutes) →
      (get_or_fetch_price latest now dur fetch_result).2 = 1) := by
  constructor
  · intro v hv hage
    have hst : v.is_stale = false := by
      rw [get_cached_price_stale hv]
      simp only [decide_eq_false_iff_not, not_le]
      exact hage
    unfold get_or_fetch_price
    rw [hv]
    simp [hst]
  · rintro (hnone | ⟨v, hv, hage⟩)
    · unfold get_or_fetch_price
      rw [hnone]
      cases fetch_result <;> rfl
    · have hst : v.is_stale = true := by
        rw [get_cached_price_stale hv]
        simpa using hage
      unfold get_or_fetch_price
      rw [hv]
      simp only [hst]
      cases fetch_result <;> rfl

/-- C6 witness: the freshness theorem with a 10-minute-old entry against a
15-minute window (cache hit, no fetch) and, for the second part, a
120-minute-old entry against a 60-minute window (one fetch). -/
theorem c6_cache_freshness_witness :
    (get_or_fetch_price (some { price_per_oz := 2000, fetched_at := 0 }) 600 15
        (.ok 2100) =
      (.ok { price_per_oz := 2000, fetched_at := 0, age_minutes := 10,
             is_stale := false, from_cache := true, fallback := false }, 0)) ∧
    (get_or_fetch_price (some { price_per_oz := 2000, fetched_at := 0 }) 7200 60
        (.ok 2100)).2 = 1 := by
  have hv : get_cached_price (some { price_per_oz := 2000, fetched_at := 0 }) 600 15 =
      some { price_per_oz := 2000, fetched_at := 0, age_minutes := 10, is_stale := false } := by
    unfold get_cached_price pyInt
    norm_num
  have hv2 : get_cached_price (some { price_per_oz := 2000, fetched_at := 0 }) 7200 60 =
      some { price_per_oz := 2000, fetched_at := 0, age_minutes := 120, is_stale := true } := by
    unfold get_cached_price pyInt
    norm_num
  exact ⟨(c6_cache_freshness (some { price_per_oz := 2000, fetched_at := 0 }) 600 15
            (.ok 2100)).1
          { price_per_oz := 2000, fetched_at := 0, age_minutes := 10, is_stale := false }
          hv (by norm_num),
         (c6_cache_freshness (some { price_per_oz := 2000, fetched_at := 0 }) 7200 60
            (.ok 2100)).2
          (Or.inr ⟨{ price_per_oz := 2000, fetched_at := 0, age_minutes := 120,
                     is_stale := true }, hv2, by norm_num⟩)⟩

/-! ## Claim C4 -/

/-- C4: when the fetch function raises and a prior cached row exists (the
fetch only being invoked when that row is stale), get_or_fetch_price returns
the prior cached fields tagged from_cache and fallback instead of raising;
when no prior row exists, the fetch failure propagates to the caller. -/
theorem c4_stale_fallback (latest : Option CachedEntry) (now : ℚ) (dur : ℤ) :
    (∀ v, get_cached_price latest now dur = some v → dur ≤ v.age_minutes →
      get_or_fetch_price latest now dur (.error ()) =
        (.ok { price_per_oz := v.price_per_oz, fetched_at := v.fetched_at,
               age_minutes := v.age_minutes, is_stale := v.is_stale,
               from_cache := true, fallback := true }, 1)) ∧
    (latest = none →
      get_or_fetch_price latest now dur (.error ()) = (.error (), 1)) := by
  constructor
  · intro v hv hage
    have hst : v.is_stale = true := by
      rw [get_cached_price_stale hv]
      simpa using hage
    unfold get_or_fetch_price
    rw [hv]
    simp [hst]
  · intro hnone
    subst hnone
    rfl

/-- C4 witness: the stale-fallback theorem with a 120-minute-old entry
against a 60-minute window and a failing fetch, and with an empty cache and
a failing fetch. -/
theorem c4_stale_fallback_witness :
    (get_or_fetch_price (some { price_per_oz := 2000, fetched_at := 0 }) 7200 60
        (.error ()) =
      (.ok { price_per_oz := 2000, fetched_at := 0, age_minutes := 120,
             is_stale := true, from_cache := true, fallback := true }, 1)) ∧
    (get_or_fetch_price none 7200 60 (.error ()) = (.error (), 1)) := by
  have hv2 : get_cached_price (some { price_per_oz := 2000, fetched_at := 0 }) 7200 60 =
      some { price_per_oz := 2000, fetched_at := 0, age_minutes := 120, is_stale := true } := by
    unfold get_cached_price pyInt
    norm_num
  exact ⟨(c4_stale_fallback (some { price_per_oz := 2000, fetched_at := 0 }) 7200 60).1
          { price_per_oz := 2000, fetched_at := 0, age_minutes := 120, is_stale := true }
          hv2 (by norm_num),
         (c4_stale_fallback none 7200 60).2 rfl⟩

/-! ## Fetch retry lemmas -/

theorem mrf_server_step {resp : ℕ → SimResponse} {ra r i s : ℕ}
    (hs : resp i = .status s) (h500 : 500 ≤ s) (h600 : s < 600) :
    make_requestFrom resp ra (r + 1) i =
      ({ status_code := some s, success := false } ::
          (make_requestFrom resp ra r (i + 1)).1,
        (make_requestFrom resp ra r (i + 1)).2) := by
  have hd : decide (s < 400) = false := decide_eq_false (by omega)
  simp only [make_requestFrom, hs, hd]
  rw [if_neg (by omega), if_neg (by omega), if_pos h600]

theorem mrf_success_step {resp : ℕ → SimResponse} {ra r i s : ℕ}
    (hs : resp i = .status s) (hlt : s < 400) :
    make_requestFrom resp ra (r + 1) i =
      ([{ status_code := some s, success := true }], .ok s) := by
  have hd : decide (s < 400) = true := decide_eq_true hlt
  simp only [make_requestFrom, hs, hd]
  rw [if_pos hlt]

theorem mrf_client_step {resp : ℕ → SimResponse} {ra r i c : ℕ}
    (hs : resp i = .status c) (h4 : 400 ≤ c) (h5 : c < 500) :
    make_requestFrom resp ra (r + 1) i =
      ([{ status_code := some c, success := false },
        { status_code := some c, success := false }], .connError i) := by
  have hd : decide (c < 400) = false := decide_eq_false (by omega)
  simp only [make_requestFrom, hs, hd]
  rw [if_neg (by omega), if_pos h5]

/-! ## Claim C3 -/

/-- C3 counterexample: a single simulated client-error response makes
make_request fail immediately, but that one attempt writes two audit
records — the generic per-response log and the client-error log — not
exactly one. -/
theorem c3_client_error_audit_counterexample :
    make_request 4 (fun _ => SimResponse.status 404) =
      ([{ status_code := some 404, success := false },
        { status_code := some 404, success := false }], .connError 0) ∧
    ¬ (make_request 4 (fun _ => SimResponse.status 404)).1.length = 1 := by
  decide

/-- C3 (amended): with a retry budget of at least 4, three consecutive
server-error (5xx, that is 500-599, the statuses raise_for_status raises
for and the client-error test passes on to the retry path) responses
followed by a success yield one successful result with exactly four audit
records, one per attempt; a single client-error response yields an
immediate failure with no further attempts and exactly two audit records
for that sole attempt. -/
theorem c3_retry_classification :
    (∀ (n : ℕ) (resp : ℕ → SimResponse) (s0 s1 s2 s3 : ℕ),
      4 ≤ n →
      resp 0 = .status s0 → resp 1 = .status s1 → resp 2 = .status s2 →
      resp 3 = .status s3 →
      500 ≤ s0 → s0 < 600 → 500 ≤ s1 → s1 < 600 → 500 ≤ s2 → s2 < 600 →
      s3 < 400 →
      make_request n resp =
        ([{ status_code := some s0, success := false },
          { status_code := some s1, success := false },
          { status_code := some s2, success := false },
          { status_code := some s3, success := true }], .ok s3)) ∧
    (∀ (n : ℕ) (resp : ℕ → SimResponse) (c : ℕ),
      1 ≤ n → resp 0 = .status c → 400 ≤ c → c < 500 →
      make_request n resp =
        ([{ status_code := some c, success := false },
          { status_code := some c, success := false }], .connError 0)) := by
  constructor
  · intro n resp s0 s1 s2 s3 hn h0 h1 h2 h3 hs0 hs0u hs1 hs1u hs2 hs2u hs3
    obtain ⟨m, rfl⟩ : ∃ m, n = m + 4 := ⟨n - 4, by omega⟩
    show make_requestFrom resp (m + 4) (m + 4) 0 = _
    have e4 : m + 4 = (m + 3) + 1 := rfl
    have e3 : m + 3 = (m + 2) + 1 := rfl
    have e2 : m + 2 = (m + 1) + 1 := rfl
    rw [e4, mrf_server_step h0 hs0 hs0u]
    rw [e3, mrf_server_step h1 hs1 hs1u]
    rw [e2, mrf_server_step h2 hs2 hs2u]
    rw [mrf_success_step h3 hs3]
  · intro n resp c hn h0 h4 h5
    obtain ⟨m, rfl⟩ : ∃ m, n = m + 1 := ⟨n - 1, by omega⟩
    show make_requestFrom resp (m + 1) (m + 1) 0 = _
    rw [mrf_client_step h0 h4 h5]

/-- C3 witness: the amended retry theorem applied with budget 4 to the
concrete trace 500, 503, 502, 200, and with budget 1 to the single
response 404. -/
theorem c3_retry_classification_witness :
    make_request 4
        (fun i => if i = 0 then .status 500 else if i = 1 then .status 503
          else if i = 2 then .status 502 else .status 200) =
      ([{ status_code := some 500, success := false },
        { status_code := some 503, success := false },
        { status_code := some 502, success := false },
        { status_code := some 200, success := true }], .ok 200) ∧
    make_request 1 (fun _ => SimResponse.status 404) =
      ([{ status_code := some 404, success := false },
        { status_code := some 404, success := false }], .connError 0) :=
  ⟨c3_retry_classification.1 4
      (fun i => if i = 0 then .status 500 else if i = 1 then .status 503
        else if i = 2 then .status 502 else .status 200)
      500 503 502 200 (by decide) rfl rfl rfl rfl
      (by decide) (by decide) (by decide) (by decide) (by decide) (by decide)
      (by decide),
   c3_retry_classification.2 1 (fun _ => SimResponse.status 404) 404
      (by decide) rfl (by decide) (by decide)⟩

/-! ## Scan orchestration lemmas -/

theorem scan_foldl (spot : String → Option ℚ) (items : List (ListingData × Bool)) :
    ∀ (d : ℕ) (es : List ScanError),
    items.foldl (scanStep spot) (d, es) =
      (d + items.countP (fun p => !p.2 &&
          isDeal (spreadFor p.1.price p.1.weight_oz (spot p.1.metal_type))),
        es ++ (items.filter fun p => p.2).map
          (fun p => ScanError.listingError p.1.external_id)) := by
  induction items with
  | nil =>
      intro d es
      simp
  | cons x xs ih =>
      intro d es
      by_cases hx : x.2 = true
      · rw [List.foldl_cons,
          show scanStep spot (d, es) x =
            (d, es ++ [ScanError.listingError x.1.external_id]) from by
              simp [scanStep, hx],
          ih]
        simp [List.countP_cons, List.filter_cons, hx, Prod.ext_iff]
      · have hx' : x.2 = false := by
          revert hx
          cases x.2 <;> simp
        rw [List.foldl_cons,
          show scanStep spot (d, es) x =
            (if isDeal (spreadFor x.1.price x.1.weight_oz (spot x.1.metal_type))
              then d + 1 else d, es) from by simp [scanStep, hx'],
          ih]
        by_cases hdeal :
            isDeal (spreadFor x.1.price x.1.weight_oz (spot x.1.metal_type)) = true
        · simp only [List.countP_cons, List.filter_cons, hx', hdeal, Bool.not_false,
            Bool.true_and, Bool.false_eq_true, if_false, if_true, Prod.ext_iff]
          refine ⟨by omega, trivial⟩
        · have hd' :
              isDeal (spreadFor x.1.price x.1.weight_oz (spot x.1.metal_type)) = false := by
            revert hdeal
            cases isDeal (spreadFor x.1.price x.1.weight_oz (spot x.1.metal_type)) <;> simp
          simp only [List.countP_cons, List.filter_cons, hx', hd', Bool.not_false,
            Bool.true_and, Bool.false_eq_true, if_false, Prod.ext_iff]
          refine ⟨by omega, trivial⟩

/-! ## Claim C8 -/

/-- C8: a scan returns the full listing count; its error list is the
spot-price errors followed by one entry for each listing whose processing
failed; deals are counted over every listing whose processing did not fail,
before and after any failure, so one failing listing never aborts the rest;
and the outcome's success flag is true exactly when the error list is
empty. -/
theorem c8_scan_error_isolation (spot : String → Option ℚ)
    (items : List (ListingData × Bool)) :
    (perform_scan spot items).listings_found = items.length ∧
    (perform_scan spot items).errors =
      spotErrors spot ++ (items.filter fun p => p.2).map
        (fun p => ScanError.listingError p.1.external_id) ∧
    (perform_scan spot items).deals_found =
      items.countP (fun p => !p.2 &&
        isDeal (spreadFor p.1.price p.1.weight_oz (spot p.1.metal_type))) ∧
    ((perform_scan spot items).success = true ↔
      (perform_scan spot items).errors = []) := by
  have hf := scan_foldl spot items 0 (spotErrors spot)
  refine ⟨rfl, ?_, ?_, ?_⟩
  · show (items.foldl (scanStep spot) (0, spotErrors spot)).2 = _
    rw [hf]
  · show (items.foldl (scanStep spot) (0, spotErrors spot)).1 = _
    rw [hf]
    exact Nat.zero_add _
  · show decide ((items.foldl (scanStep spot) (0, spotErrors spot)).2.length = 0) = true ↔
      (items.foldl (scanStep spot) (0, spotErrors spot)).2 = []
    simp

end MetalsScanner
